import Mathlib

/-!
Shallow embedding of `checksysvers/remote_checker.py` (class `RemoteSysVersChecker`)
and proofs about the remote version-detection engine: the per-family
command-fallback chains (`_remote_check_cisco_with_paramiko`,
`_remote_check_juniper_with_paramiko`, `_remote_check_with_subprocess`), the
netmiko single-command check (`_remote_check_with_netmiko`), the device-type
auto-detection loop (`_try_auto_detect_device_type`), and the dispatching entry
point (`remote_check_version`).

Python strings are modelled as Lean `String`s, with `str.lower()`, `str.strip()`
and the `in` substring test modelled over the character list (`pyLower`,
`pyStrip`, `containsSubstr`).  Python exceptions raised by the transport
libraries (paramiko, netmiko, subprocess) are modelled by the type `PyExc`;
code that may raise is given stub transports returning `Except PyExc _`, and
the `try/except` blocks of the source are mirrored by `match` expressions on
those results.  All modelled exception classes derive from Python's
`Exception`, so a bare `except Exception` handler catches every `PyExc`.
Each checker function additionally records, for the theorems below, which
commands / device types it attempted and how many connections it opened and
closed; these instrumentation fields do not influence the returned result.
-/

namespace Checksysvers

/-- Model of Python `str.lower()` (the strings compared in the source are ASCII). -/
def pyLower (s : String) : String := String.mk (s.toList.map Char.toLower)

/-- Model of Python `str.strip()`: drop leading and trailing whitespace. -/
def pyStrip (s : String) : String :=
  String.mk (((s.toList.dropWhile Char.isWhitespace).reverse.dropWhile Char.isWhitespace).reverse)

/-- Contiguous-sublist test on character lists, used to model Python's
`needle in hay` substring operator. -/
def charsContain : List Char → List Char → Bool
  | [], needle => needle.isEmpty
  | c :: t, needle => needle.isPrefixOf (c :: t) || charsContain t needle

/-- Model of Python's `needle in hay` on strings. -/
def containsSubstr (hay needle : String) : Bool := charsContain hay.toList needle.toList

/-- Python truthiness of a string: non-empty. -/
def strTruthy (s : String) : Bool := s ≠ ""

/-- Python truthiness of an optional string (`None` and `''` are falsy). -/
def optTruthy : Option String → Bool
  | none => false
  | some s => strTruthy s

/-- The exception classes that the transport stubs may raise.  Every
constructor models a subclass of Python's `Exception`, so the source's bare
`except Exception` handlers catch all of them. -/
inductive PyExc where
  | paramikoAuth
  | paramikoSSH
  | netmikoAuth
  | netmikoTimeout
  | calledProcess
  | otherError (msg : String)
deriving DecidableEq, Repr

/-- The output test of the paramiko chains (remote_checker.py line 275):
`cmd_output and cmd_output.strip() and 'not found' not in cmd_output.lower()`. -/
def paramikoOutputValid (out : String) : Bool :=
  strTruthy out && strTruthy (pyStrip out) && !containsSubstr (pyLower out) "not found"

/-- The output test of the subprocess chain (remote_checker.py line 486):
`output.strip() and 'command not found' not in output.lower()`. -/
def subprocessOutputValid (out : String) : Bool :=
  strTruthy (pyStrip out) && !containsSubstr (pyLower out) "command not found"

/-- The output test of the netmiko check and of the auto-detection loop
(remote_checker.py lines 214 and 408): `output and output.strip()`. -/
def netmikoOutputValid (out : String) : Bool :=
  strTruthy out && strTruthy (pyStrip out)

/-- `commands_to_try` of `_remote_check_cisco_with_paramiko` (lines 259-263). -/
def ciscoCommandsToTry : List String :=
  ["show version", "/usr/bin/cli \"show version\"", "vtysh -c \"show version\""]

/-- `commands_to_try` of `_remote_check_juniper_with_paramiko` (lines 334-337). -/
def juniperCommandsToTry : List String :=
  ["show version", "cli -c \"show version\""]

/-- A paramiko `exec_command` stub: for a command, either raise or return
(stdout, stderr) as decoded strings. -/
abbrev ParamikoExec := String → Except PyExc (String × String)

/-- Whether command `c` would be judged successful by the paramiko chain:
`exec_command` does not raise and the stdout passes `paramikoOutputValid`. -/
def paramikoExecPasses (exec : ParamikoExec) (c : String) : Bool :=
  match exec c with
  | .ok (out, _) => paramikoOutputValid out
  | .error _ => false

/-- The stdout command `c` produces under `exec` (empty if it raises). -/
def paramikoExecOut (exec : ParamikoExec) (c : String) : String :=
  match exec c with
  | .ok (out, _) => out
  | .error _ => ""

/-- The candidate loop of the paramiko chains (lines 265-283): try each
command; on an exception (`except Exception ... continue`) or invalid output,
go on to the next; on valid output, keep `cmd_output.strip()` and `break`.
Also returns the list of commands attempted, in order. -/
def paramikoCommandLoop (exec : ParamikoExec) : List String → Option String × List String
  | [] => (none, [])
  | c :: rest =>
    match exec c with
    | .error _ =>
      let r := paramikoCommandLoop exec rest
      (r.1, c :: r.2)
    | .ok (out, _err) =>
      if paramikoOutputValid out then (some (pyStrip out), [c])
      else
        let r := paramikoCommandLoop exec rest
        (r.1, c :: r.2)

/-- Result of one paramiko-chain check, with instrumentation: the commands
attempted, the number of `ssh.connect` attempts, and the numbers of
successfully opened and of closed connections. -/
structure ChainResult where
  result : Except PyExc (Option String)
  triedCommands : List String
  connAttempts : Nat
  opened : Nat
  closed : Nat
deriving Repr

/-- Common body of `_remote_check_cisco_with_paramiko` (lines 229-302) and
`_remote_check_juniper_with_paramiko` (lines 304-376), which differ only in
their `commands_to_try` list.  If paramiko is unavailable, return `None`.
Otherwise `ssh.connect`; on any exception the outer handlers
(`paramiko.AuthenticationException`, `paramiko.SSHException`, `Exception`)
all return `None`.  After a successful connect the candidate loop runs (its
body cannot raise past its inner `except Exception`), then `ssh.close()` is
reached unconditionally, and `output` is returned if truthy, else `None`. -/
def remoteCheckParamikoChain (paramikoAvailable : Bool) (connect : Except PyExc Unit)
    (exec : ParamikoExec) (commandsToTry : List String) : ChainResult :=
  if !paramikoAvailable then ⟨.ok none, [], 0, 0, 0⟩
  else
    match connect with
    | .error _e => ⟨.ok none, [], 1, 0, 0⟩
    | .ok () =>
      let r := paramikoCommandLoop exec commandsToTry
      ⟨.ok (match r.1 with
            | some s => if strTruthy s then some s else none
            | none => none),
       r.2, 1, 1, 1⟩

/-- `_remote_check_cisco_with_paramiko` (lines 229-302). -/
def remoteCheckCiscoWithParamiko (paramikoAvailable : Bool) (connect : Except PyExc Unit)
    (exec : ParamikoExec) : ChainResult :=
  remoteCheckParamikoChain paramikoAvailable connect exec ciscoCommandsToTry

/-- `_remote_check_juniper_with_paramiko` (lines 304-376). -/
def remoteCheckJuniperWithParamiko (paramikoAvailable : Bool) (connect : Except PyExc Unit)
    (exec : ParamikoExec) : ChainResult :=
  remoteCheckParamikoChain paramikoAvailable connect exec juniperCommandsToTry

/-- `netmiko_device_types` of `_remote_check_with_netmiko` (lines 384-387). -/
def netmikoDeviceTypes : List (String × String) :=
  [("cisco", "cisco_ios"), ("juniper", "juniper_junos")]

/-- `netmiko_device_types.get(device_type.lower(), 'cisco_ios')` (line 389):
any device type other than cisco/juniper is mapped to `cisco_ios`. -/
def netmikoDeviceTypeFor (deviceType : String) : String :=
  (netmikoDeviceTypes.lookup (pyLower deviceType)).getD "cisco_ios"

/-- Result of the netmiko check, with the netmiko device type it connected
with and connection instrumentation. -/
structure NetmikoResult where
  result : Except PyExc (Option String)
  netmikoType : String
  connAttempts : Nat
  opened : Nat
  closed : Nat
deriving Repr

/-- `_remote_check_with_netmiko` (lines 378-433).  `ConnectHandler` is used as
a context manager, so a connection once opened is closed on every path; all
outer handlers (`NetmikoAuthenticationException`, `NetmikoTimeoutException`,
`Exception`) return `None`.  On output, `output.strip()` is returned when
`output and output.strip()`, else `None`. -/
def remoteCheckWithNetmiko (deviceType : String) (connect : String → Except PyExc Unit)
    (send : String → Except PyExc String) : NetmikoResult :=
  let dtNet := netmikoDeviceTypeFor deviceType
  match connect dtNet with
  | .error _e => ⟨.ok none, dtNet, 1, 0, 0⟩
  | .ok () =>
    match send dtNet with
    | .error _e => ⟨.ok none, dtNet, 1, 1, 1⟩
    | .ok output =>
      ⟨.ok (if netmikoOutputValid output then some (pyStrip output) else none),
       dtNet, 1, 1, 1⟩

/-- The `elif` chain of `_remote_check_with_subprocess` (lines 440-466)
resolving a device type to its candidate command list; unsupported types get
`none` (the source logs `Unsupported device type` and returns `None`). -/
def subprocessCommandsFor (deviceType : String) : Option (List String) :=
  if pyLower deviceType = "cisco" then
    some ["show version", "/usr/bin/cli \"show version\"", "vtysh -c \"show version\""]
  else if pyLower deviceType = "juniper" then
    some ["show version", "cli -c \"show version\"", "cli show version"]
  else if pyLower deviceType = "ubiquiti" then
    some ["cat /etc/version"]
  else if pyLower deviceType = "linux" then
    some ["cat /etc/os-release | grep PRETTY_NAME"]
  else if pyLower deviceType = "windows" then
    some ["systeminfo | findstr /B /C:\"OS Name\" /C:\"OS Version\""]
  else if pyLower deviceType = "macos" then
    some ["sw_vers"]
  else
    none

/-- Whether command `c` would be judged successful by the subprocess chain. -/
def subprocessExecPasses (exec : String → Except PyExc String) (c : String) : Bool :=
  match exec c with
  | .ok out => subprocessOutputValid out
  | .error _ => false

/-- The candidate loop of `_remote_check_with_subprocess` (lines 472-495).
The inner handler catches only `subprocess.CalledProcessError`
(`continue`); any other exception propagates out of the loop to the outer
handler.  Valid output returns `output.strip()` at once; invalid output
records `last_error` (logging only) and continues. -/
def subprocessCommandLoop (exec : String → Except PyExc String) :
    List String → Except PyExc (Option String) × List String
  | [] => (.ok none, [])
  | c :: rest =>
    match exec c with
    | .error PyExc.calledProcess =>
      let r := subprocessCommandLoop exec rest
      (r.1, c :: r.2)
    | .error e => (.error e, [c])
    | .ok out =>
      if subprocessOutputValid out then (.ok (some (pyStrip out)), [c])
      else
        let r := subprocessCommandLoop exec rest
        (r.1, c :: r.2)

/-- Result of the subprocess check, with the commands attempted in order. -/
structure SubprocResult where
  result : Except PyExc (Option String)
  triedCommands : List String
deriving Repr

/-- `_remote_check_with_subprocess` (lines 435-503).  Unsupported device types
return `None` before any command runs; otherwise the candidate loop runs and
an exception escaping it reaches the outer `except Exception` which returns
`None`.  (The sshpass probe only changes the ssh command-line prefix, not
which candidate commands run, and is absorbed into the `exec` stub.) -/
def remoteCheckWithSubprocess (deviceType : String)
    (exec : String → Except PyExc String) : SubprocResult :=
  match subprocessCommandsFor deviceType with
  | none => ⟨.ok none, []⟩
  | some cmds =>
    let r := subprocessCommandLoop exec cmds
    match r.1 with
    | .error _e => ⟨.ok none, r.2⟩
    | .ok res => ⟨.ok res, r.2⟩

/-- `device_types_to_try` of `_try_auto_detect_device_type` (lines 189-194):
(netmiko type, friendly name) pairs, in declared order. -/
def deviceTypesToTry : List (String × String) :=
  [("cisco_ios", "Cisco IOS"), ("juniper", "Juniper JunOS"),
   ("cisco_xe", "Cisco IOS-XE"), ("cisco_nxos", "Cisco NX-OS")]

/-- The family loop of `_try_auto_detect_device_type` (lines 198-227).  The
stub `run` models `ConnectHandler` + `send_command` for one netmiko device
type.  On `NetmikoAuthenticationException`, return `None` at once (fatal); on
any other exception, `continue`; on truthy stripped output, return
`output.strip()`; empty output falls through to the next family.  Also
returns the netmiko types attempted, in order. -/
def autoDetectLoop (run : String → Except PyExc String) :
    List (String × String) → Option String × List String
  | [] => (none, [])
  | (nt, _friendly) :: rest =>
    match run nt with
    | .error PyExc.netmikoAuth => (none, [nt])
    | .error _ =>
      let r := autoDetectLoop run rest
      (r.1, nt :: r.2)
    | .ok output =>
      if netmikoOutputValid output then (some (pyStrip output), [nt])
      else
        let r := autoDetectLoop run rest
        (r.1, nt :: r.2)

/-- `_try_auto_detect_device_type` (lines 185-227). -/
def tryAutoDetectDeviceType (run : String → Except PyExc String) :
    Option String × List String :=
  autoDetectLoop run deviceTypesToTry

/-- Whether family `nt` fails softly under `run`: a non-authentication
exception, or output that is empty after stripping (the loop then continues
to the next family). -/
def autoSoftFails (run : String → Except PyExc String) (nt : String) : Bool :=
  match run nt with
  | .error PyExc.netmikoAuth => false
  | .error _ => true
  | .ok output => !netmikoOutputValid output

/-- The availability flags `NETMIKO_AVAILABLE` and `PARAMIKO_AVAILABLE`
(module level, lines 36-51). -/
structure Env where
  netmikoAvailable : Bool
  paramikoAvailable : Bool
deriving Repr

/-- The connection parameters held by `RemoteSysVersChecker.__init__`
(lines 61-67): `self.username`, `self.password`, `self.port`.  (`self.device`
and `self.infrahub_token` play no part in the checked paths.) -/
structure Checker where
  username : Option String
  password : Option String
  port : String
deriving Repr

/-- The transport stubs a full `remote_check_version` call may consult. -/
structure Transports where
  autoRun : String → Except PyExc String
  paramikoConnect : Except PyExc Unit
  paramikoExec : ParamikoExec
  netmikoConnect : String → Except PyExc Unit
  netmikoSend : String → Except PyExc String
  subprocessExec : String → Except PyExc String

/-- Result of `remote_check_version`, with the number of connection attempts
made below it and the checker state after the call (the source never assigns
to `self` inside the checking methods, which the explicit state-passing makes
visible). -/
structure CheckResult where
  result : Except PyExc (Option String)
  connAttempts : Nat
  checker : Checker
deriving Repr

/-- `remote_check_version` (lines 144-183): dispatch on `device_type.lower()`
and the availability flags, exactly in source order — `auto` first (requiring
netmiko and a truthy password, else `None` immediately), then the juniper and
cisco paramiko chains (requiring paramiko and a truthy password), then
netmiko, else subprocess. -/
def remoteCheckVersion (env : Env) (t : Transports) (c : Checker)
    (deviceType : String) : CheckResult :=
  if pyLower deviceType = "auto" then
    if env.netmikoAvailable && optTruthy c.password then
      let a := tryAutoDetectDeviceType t.autoRun
      ⟨.ok a.1, a.2.length, c⟩
    else ⟨.ok none, 0, c⟩
  else if pyLower deviceType = "juniper" && env.paramikoAvailable && optTruthy c.password then
    let r := remoteCheckJuniperWithParamiko env.paramikoAvailable t.paramikoConnect t.paramikoExec
    ⟨r.result, r.connAttempts, c⟩
  else if pyLower deviceType = "cisco" && env.paramikoAvailable && optTruthy c.password then
    let r := remoteCheckCiscoWithParamiko env.paramikoAvailable t.paramikoConnect t.paramikoExec
    ⟨r.result, r.connAttempts, c⟩
  else if env.netmikoAvailable && optTruthy c.password then
    let r := remoteCheckWithNetmiko deviceType t.netmikoConnect t.netmikoSend
    ⟨r.result, r.connAttempts, c⟩
  else
    let r := remoteCheckWithSubprocess deviceType t.subprocessExec
    ⟨r.result, r.triedCommands.length, c⟩

/-! ### Helper lemmas -/

/-- Characterization of the paramiko candidate loop: the returned text is the
stripped stdout of the first command (in list order) that passes, and the
attempted commands are the non-passing ones before it followed by the passing
one itself (or the whole list when none passes). -/
theorem paramikoCommandLoop_spec (exec : ParamikoExec) (cmds : List String) :
    paramikoCommandLoop exec cmds =
      ((cmds.find? (paramikoExecPasses exec)).map (fun c => pyStrip (paramikoExecOut exec c)),
       cmds.takeWhile (fun c => !paramikoExecPasses exec c)
         ++ (cmds.find? (paramikoExecPasses exec)).toList) := by
  induction cmds with
  | nil => simp [paramikoCommandLoop]
  | cons c rest ih =>
    cases hc : exec c with
    | error e =>
      have hp : paramikoExecPasses exec c = false := by
        simp [paramikoExecPasses, hc]
      have hfind : List.find? (paramikoExecPasses exec) (c :: rest)
          = List.find? (paramikoExecPasses exec) rest :=
        List.find?_cons_of_neg _ (by simp [hp])
      simp [paramikoCommandLoop, hc, hp, hfind, List.takeWhile_cons, ih]
    | ok p =>
      obtain ⟨out, err⟩ := p
      by_cases hv : paramikoOutputValid out = true
      · have hp : paramikoExecPasses exec c = true := by
          simp [paramikoExecPasses, hc, hv]
        have ho : paramikoExecOut exec c = out := by
          simp [paramikoExecOut, hc]
        have hfind : List.find? (paramikoExecPasses exec) (c :: rest) = some c :=
          List.find?_cons_of_pos _ hp
        simp [paramikoCommandLoop, hc, hv, hp, ho, hfind, List.takeWhile_cons]
      · have hv' : paramikoOutputValid out = false := by simpa using hv
        have hp : paramikoExecPasses exec c = false := by
          simp [paramikoExecPasses, hc, hv']
        have hfind : List.find? (paramikoExecPasses exec) (c :: rest)
            = List.find? (paramikoExecPasses exec) rest :=
          List.find?_cons_of_neg _ (by simp [hp])
        simp [paramikoCommandLoop, hc, hv', hp, hfind, List.takeWhile_cons, ih]

/-- Any text returned by the paramiko candidate loop is truthy (non-empty):
it is the stripped output of a command that passed `paramikoOutputValid`,
whose second conjunct is exactly that non-emptiness. -/
theorem paramikoCommandLoop_some_truthy (exec : ParamikoExec) (cmds : List String)
    (s : String) (h : (paramikoCommandLoop exec cmds).1 = some s) :
    strTruthy s = true := by
  rw [paramikoCommandLoop_spec] at h
  simp only [Option.map_eq_some'] at h
  obtain ⟨c, hc, hs⟩ := h
  have hpass := List.find?_some hc
  cases hx : exec c with
  | error e =>
    have hzero : paramikoExecPasses exec c = false := by simp [paramikoExecPasses, hx]
    rw [hzero] at hpass
    exact absurd hpass (by simp)
  | ok p =>
    obtain ⟨out, err⟩ := p
    have hpv : paramikoOutputValid out = true := by
      have hh : paramikoExecPasses exec c = paramikoOutputValid out := by
        simp [paramikoExecPasses, hx]
      rw [hh] at hpass
      exact hpass
    have ho : paramikoExecOut exec c = out := by simp [paramikoExecOut, hx]
    rw [ho] at hs
    subst hs
    unfold paramikoOutputValid at hpv
    simp only [Bool.and_eq_true] at hpv
    exact hpv.1.2

/-- The commands attempted by the paramiko candidate loop form a prefix of the
declared candidate list. -/
theorem paramikoCommandLoop_tried_isPre (exec : ParamikoExec) (cmds : List String) :
    (paramikoCommandLoop exec cmds).2 <+: cmds := by
  induction cmds with
  | nil => simp [paramikoCommandLoop]
  | cons c rest ih =>
    cases hc : exec c with
    | error e =>
      obtain ⟨t, ht⟩ := ih
      exact ⟨t, by simp [paramikoCommandLoop, hc, ht]⟩
    | ok p =>
      obtain ⟨out, err⟩ := p
      by_cases hv : paramikoOutputValid out = true
      · exact ⟨rest, by simp [paramikoCommandLoop, hc, hv]⟩
      · obtain ⟨t, ht⟩ := ih
        exact ⟨t, by simp [paramikoCommandLoop, hc, hv, ht]⟩

/-- Prepending families that all fail softly leaves the auto-detection result
unchanged and merely prepends their netmiko types to the attempted list. -/
theorem autoDetectLoop_append_soft (run : String → Except PyExc String)
    (pre rest : List (String × String))
    (h : ∀ p ∈ pre, autoSoftFails run p.1 = true) :
    autoDetectLoop run (pre ++ rest)
      = ((autoDetectLoop run rest).1, pre.map Prod.fst ++ (autoDetectLoop run rest).2) := by
  induction pre with
  | nil => simp
  | cons p pre' ih =>
    obtain ⟨nt, fn⟩ := p
    have hp : autoSoftFails run nt = true := h ⟨nt, fn⟩ (by simp)
    have ih' := ih (fun q hq => h q (by simp [hq]))
    cases hr : run nt with
    | ok output =>
      have hv : netmikoOutputValid output = false := by
        unfold autoSoftFails at hp
        rw [hr] at hp
        simpa using hp
      simp [autoDetectLoop, hr, hv, ih']
    | error e =>
      have he : e ≠ PyExc.netmikoAuth := by
        intro h'
        subst h'
        unfold autoSoftFails at hp
        rw [hr] at hp
        simp at hp
      cases e <;> simp_all [autoDetectLoop, hr]

/-- The netmiko device types attempted by the auto-detection loop form a
prefix of the declared family list's netmiko types. -/
theorem autoDetectLoop_tried_isPre (run : String → Except PyExc String)
    (l : List (String × String)) :
    (autoDetectLoop run l).2 <+: l.map Prod.fst := by
  induction l with
  | nil => simp [autoDetectLoop]
  | cons p rest ih =>
    obtain ⟨nt, fn⟩ := p
    cases hr : run nt with
    | ok output =>
      by_cases hv : netmikoOutputValid output = true
      · exact ⟨rest.map Prod.fst, by simp [autoDetectLoop, hr, hv]⟩
      · obtain ⟨t, ht⟩ := ih
        exact ⟨t, by simp [autoDetectLoop, hr, hv, ht]⟩
    | error e =>
      cases e with
      | netmikoAuth => exact ⟨rest.map Prod.fst, by simp [autoDetectLoop, hr]⟩
      | paramikoAuth => obtain ⟨t, ht⟩ := ih; exact ⟨t, by simp [autoDetectLoop, hr, ht]⟩
      | paramikoSSH => obtain ⟨t, ht⟩ := ih; exact ⟨t, by simp [autoDetectLoop, hr, ht]⟩
      | netmikoTimeout => obtain ⟨t, ht⟩ := ih; exact ⟨t, by simp [autoDetectLoop, hr, ht]⟩
      | calledProcess => obtain ⟨t, ht⟩ := ih; exact ⟨t, by simp [autoDetectLoop, hr, ht]⟩
      | otherError msg => obtain ⟨t, ht⟩ := ih; exact ⟨t, by simp [autoDetectLoop, hr, ht]⟩

/-- When no candidate passes, the subprocess candidate loop yields either
`none` (exhaustion) or a propagating exception — never a success value. -/
theorem subprocessCommandLoop_no_pass (exec : String → Except PyExc String)
    (cmds : List String) (h : ∀ c ∈ cmds, subprocessExecPasses exec c = false) :
    (subprocessCommandLoop exec cmds).1 = .ok none
      ∨ ∃ e, (subprocessCommandLoop exec cmds).1 = .error e := by
  induction cmds with
  | nil => left; simp [subprocessCommandLoop]
  | cons c rest ih =>
    have hc : subprocessExecPasses exec c = false := h c (by simp)
    have ih' := ih (fun q hq => h q (by simp [hq]))
    cases hx : exec c with
    | error e =>
      cases e with
      | calledProcess =>
        rcases ih' with h1 | ⟨e', h1⟩
        · left; simp [subprocessCommandLoop, hx, h1]
        · right; exact ⟨e', by simp [subprocessCommandLoop, hx, h1]⟩
      | paramikoAuth =>
        right; exact ⟨PyExc.paramikoAuth, by simp [subprocessCommandLoop, hx]⟩
      | paramikoSSH =>
        right; exact ⟨PyExc.paramikoSSH, by simp [subprocessCommandLoop, hx]⟩
      | netmikoAuth =>
        right; exact ⟨PyExc.netmikoAuth, by simp [subprocessCommandLoop, hx]⟩
      | netmikoTimeout =>
        right; exact ⟨PyExc.netmikoTimeout, by simp [subprocessCommandLoop, hx]⟩
      | otherError msg =>
        right; exact ⟨PyExc.otherError msg, by simp [subprocessCommandLoop, hx]⟩
    | ok out =>
      have hv : subprocessOutputValid out = false := by
        unfold subprocessExecPasses at hc
        rw [hx] at hc
        exact hc
      rcases ih' with h1 | ⟨e', h1⟩
      · left; simp [subprocessCommandLoop, hx, hv, h1]
      · right; exact ⟨e', by simp [subprocessCommandLoop, hx, hv, h1]⟩

/-- The paramiko chain never lets an exception escape: every outer handler
returns `None`. -/
theorem remoteCheckParamikoChain_isOk (pa : Bool) (connect : Except PyExc Unit)
    (exec : ParamikoExec) (cmds : List String) :
    ∃ r, (remoteCheckParamikoChain pa connect exec cmds).result = .ok r := by
  unfold remoteCheckParamikoChain
  cases pa with
  | false => exact ⟨none, rfl⟩
  | true =>
    cases connect with
    | error e => exact ⟨none, rfl⟩
    | ok u => cases u; exact ⟨_, rfl⟩

/-- The netmiko check never lets an exception escape. -/
theorem remoteCheckWithNetmiko_isOk (dt : String) (connect : String → Except PyExc Unit)
    (send : String → Except PyExc String) :
    ∃ r, (remoteCheckWithNetmiko dt connect send).result = .ok r := by
  cases hc : connect (netmikoDeviceTypeFor dt) with
  | error e => exact ⟨none, by simp [remoteCheckWithNetmiko, hc]⟩
  | ok u =>
    cases u
    cases hs : send (netmikoDeviceTypeFor dt) with
    | error e => exact ⟨none, by simp [remoteCheckWithNetmiko, hc, hs]⟩
    | ok output =>
      exact ⟨if netmikoOutputValid output then some (pyStrip output) else none,
        by simp [remoteCheckWithNetmiko, hc, hs]⟩

/-- The subprocess check never lets an exception escape: the outer
`except Exception` converts a propagating loop exception into `None`. -/
theorem remoteCheckWithSubprocess_isOk (dt : String)
    (exec : String → Except PyExc String) :
    ∃ r, (remoteCheckWithSubprocess dt exec).result = .ok r := by
  unfold remoteCheckWithSubprocess
  cases subprocessCommandsFor dt with
  | none => exact ⟨none, rfl⟩
  | some cmds =>
    cases h : (subprocessCommandLoop exec cmds).1 with
    | error e => exact ⟨none, by simp [h]⟩
    | ok res => exact ⟨res, by simp [h]⟩

/-- Stripping the empty string yields the empty string, so a falsy string
stays falsy after `pyStrip`. -/
theorem strTruthy_pyStrip_false (s : String) (h : strTruthy s = false) :
    strTruthy (pyStrip s) = false := by
  have hs : s = "" := by simpa [strTruthy] using h
  subst hs
  rfl

/-- With paramiko available and a successful connect, the paramiko chain
returns exactly what its candidate loop produced (the final
`if output: return output else return None` re-check collapses because any
loop success is non-empty). -/
theorem remoteCheckParamikoChain_ok_result (exec : ParamikoExec) (cmds : List String) :
    (remoteCheckParamikoChain true (.ok ()) exec cmds).result
      = .ok ((paramikoCommandLoop exec cmds).1) := by
  cases h : (paramikoCommandLoop exec cmds).1 with
  | none => simp [remoteCheckParamikoChain, h]
  | some s =>
    simp [remoteCheckParamikoChain, h, paramikoCommandLoop_some_truthy exec cmds s h]

/-- With paramiko available and a successful connect, the commands the chain
attempts are those of its candidate loop. -/
theorem remoteCheckParamikoChain_ok_tried (exec : ParamikoExec) (cmds : List String) :
    (remoteCheckParamikoChain true (.ok ()) exec cmds).triedCommands
      = (paramikoCommandLoop exec cmds).2 := by
  simp [remoteCheckParamikoChain]

/-! ### Claim theorems -/

/-- Claim C1: over an established session, the cisco and juniper paramiko
fallback-chain drivers return a success result if and only if at least one
candidate command's output passes the output validator; the text returned is
exactly the stripped output of the first candidate, in declared order, that
passes; and the attempted commands are the failing ones before that first
passing candidate followed by the passing candidate itself, so no candidate
after the first passing one is attempted. -/
theorem fallbackChain_first_match (exec : ParamikoExec) :
    ((remoteCheckCiscoWithParamiko true (.ok ()) exec).result
        = .ok ((ciscoCommandsToTry.find? (paramikoExecPasses exec)).map
            (fun c => pyStrip (paramikoExecOut exec c)))
      ∧ (remoteCheckCiscoWithParamiko true (.ok ()) exec).triedCommands
        = ciscoCommandsToTry.takeWhile (fun c => !paramikoExecPasses exec c)
          ++ (ciscoCommandsToTry.find? (paramikoExecPasses exec)).toList
      ∧ ((ciscoCommandsToTry.find? (paramikoExecPasses exec)).isSome
          ↔ ∃ c ∈ ciscoCommandsToTry, paramikoExecPasses exec c = true))
    ∧ ((remoteCheckJuniperWithParamiko true (.ok ()) exec).result
        = .ok ((juniperCommandsToTry.find? (paramikoExecPasses exec)).map
            (fun c => pyStrip (paramikoExecOut exec c)))
      ∧ (remoteCheckJuniperWithParamiko true (.ok ()) exec).triedCommands
        = juniperCommandsToTry.takeWhile (fun c => !paramikoExecPasses exec c)
          ++ (juniperCommandsToTry.find? (paramikoExecPasses exec)).toList
      ∧ ((juniperCommandsToTry.find? (paramikoExecPasses exec)).isSome
          ↔ ∃ c ∈ juniperCommandsToTry, paramikoExecPasses exec c = true)) := by
  constructor
  · refine ⟨?_, ?_, List.find?_isSome⟩
    · rw [remoteCheckCiscoWithParamiko, remoteCheckParamikoChain_ok_result,
        paramikoCommandLoop_spec]
    · rw [remoteCheckCiscoWithParamiko, remoteCheckParamikoChain_ok_tried,
        paramikoCommandLoop_spec]
  · refine ⟨?_, ?_, List.find?_isSome⟩
    · rw [remoteCheckJuniperWithParamiko, remoteCheckParamikoChain_ok_result,
        paramikoCommandLoop_spec]
    · rw [remoteCheckJuniperWithParamiko, remoteCheckParamikoChain_ok_tried,
        paramikoCommandLoop_spec]

/-- Claim C2: in the auto-detection loop, once an attempted device family's
connection raises an authentication failure, the loop returns `None` at once:
the families attempted are exactly the soft-failing ones before it plus the
auth-failing family itself, independent of everything declared after it. -/
theorem autoDetect_auth_aborts (run : String → Except PyExc String)
    (pre : List (String × String)) (fam : String × String)
    (rest : List (String × String))
    (hsplit : deviceTypesToTry = pre ++ fam :: rest)
    (hsoft : ∀ p ∈ pre, autoSoftFails run p.1 = true)
    (hauth : run fam.1 = .error PyExc.netmikoAuth) :
    tryAutoDetectDeviceType run = (none, pre.map Prod.fst ++ [fam.1]) := by
  obtain ⟨nt, fn⟩ := fam
  unfold tryAutoDetectDeviceType
  rw [hsplit, autoDetectLoop_append_soft run pre _ hsoft]
  simp only at hauth
  simp [autoDetectLoop, hauth]

/-- Witness for C2: with a transport stub whose first family times out and
whose second raises an authentication failure, auto-detection returns `None`
having attempted exactly the first two families. -/
theorem autoDetect_auth_aborts_witness :
    tryAutoDetectDeviceType
      (fun nt => if nt = "cisco_ios" then .error PyExc.netmikoTimeout
                 else if nt = "juniper" then .error PyExc.netmikoAuth
                 else .ok "never reached")
      = (none, ["cisco_ios", "juniper"]) := by
  have h := autoDetect_auth_aborts
    (fun nt => if nt = "cisco_ios" then .error PyExc.netmikoTimeout
               else if nt = "juniper" then .error PyExc.netmikoAuth
               else .ok "never reached")
    [("cisco_ios", "Cisco IOS")] ("juniper", "Juniper JunOS")
    [("cisco_xe", "Cisco IOS-XE"), ("cisco_nxos", "Cisco NX-OS")]
    (by decide) (by decide) (by rfl)
  simpa using h

/-- Claim C3, counterexample: the output-validity criterion is not one single
uniform check.  The paramiko chains reject any output containing
`"not found"`, the subprocess chain only rejects outputs containing
`"command not found"`, and the netmiko path applies no substring check at
all; the three disagree on concrete outputs. -/
theorem validator_not_uniform_cx :
    paramikoOutputValid "version not found" = false
    ∧ subprocessOutputValid "version not found" = true
    ∧ netmikoOutputValid "Command not found" = true := by decide

/-- Claim C3, amended: each path's validator accepts exactly the outputs that
are non-empty after stripping and (for the paramiko chains) free of the
case-insensitive substring `"not found"`, respectively (for the subprocess
chain) free of `"command not found"`; the netmiko and auto-detection paths
only require non-emptiness after stripping.  The four example vectors hold
for the paramiko and subprocess validators. -/
theorem validators_characterization :
    (∀ s, paramikoOutputValid s
        = (strTruthy (pyStrip s) && !containsSubstr (pyLower s) "not found"))
    ∧ (∀ s, subprocessOutputValid s
        = (strTruthy (pyStrip s) && !containsSubstr (pyLower s) "command not found"))
    ∧ (∀ s, netmikoOutputValid s = strTruthy (pyStrip s))
    ∧ (paramikoOutputValid "" = false ∧ paramikoOutputValid "   " = false
        ∧ paramikoOutputValid "Command not found" = false
        ∧ paramikoOutputValid "JUNOS Software Release [20.4R3]" = true)
    ∧ (subprocessOutputValid "" = false ∧ subprocessOutputValid "   " = false
        ∧ subprocessOutputValid "Command not found" = false
        ∧ subprocessOutputValid "JUNOS Software Release [20.4R3]" = true) := by
  refine ⟨?_, fun s => rfl, ?_, by decide, by decide⟩
  · intro s
    cases hts : strTruthy s with
    | false => simp [paramikoOutputValid, hts, strTruthy_pyStrip_false s hts]
    | true => simp [paramikoOutputValid, hts]
  · intro s
    cases hts : strTruthy s with
    | false => simp [netmikoOutputValid, hts, strTruthy_pyStrip_false s hts]
    | true => simp [netmikoOutputValid, hts]

/-- Claim C4, counterexample: when every candidate of a family fails, the
exposed result is a plain `None` — not a structured failure carrying the last
failure's classification.  Concretely, the subprocess check on a `linux`
device whose only command answers `command not found`, and the cisco paramiko
chain whose every command returns empty output, both yield `None`. -/
theorem exhausted_chain_null_cx :
    (remoteCheckWithSubprocess "linux" (fun _ => .ok "command not found")).result
      = .ok none
    ∧ (remoteCheckCiscoWithParamiko true (.ok ()) (fun _ => .ok ("", ""))).result
      = .ok none := by
  exact ⟨rfl, rfl⟩

/-- Claim C4, amended: when no candidate command of a family passes the
output check, the fallback-chain drivers return `None` (the last remembered
failure is only logged); the exposed per-host result is either the version
string or an undifferentiated `None`, never a thrown exception. -/
theorem exhausted_chain_returns_none
    (exec : ParamikoExec) (cmds : List String)
    (execS : String → Except PyExc String) (dt : String)
    (h1 : ∀ cm ∈ cmds, paramikoExecPasses exec cm = false)
    (h2 : ∀ cm ∈ (subprocessCommandsFor dt).getD [], subprocessExecPasses execS cm = false) :
    (remoteCheckParamikoChain true (.ok ()) exec cmds).result = .ok none
    ∧ (remoteCheckWithSubprocess dt execS).result = .ok none := by
  constructor
  · rw [remoteCheckParamikoChain_ok_result]
    have hf : cmds.find? (paramikoExecPasses exec) = none :=
      List.find?_eq_none.mpr (fun x hx => by simp [h1 x hx])
    simp [paramikoCommandLoop_spec, hf]
  · unfold remoteCheckWithSubprocess
    cases hsc : subprocessCommandsFor dt with
    | none => rfl
    | some cmds2 =>
      have h2' : ∀ cm ∈ cmds2, subprocessExecPasses execS cm = false := by
        intro cm hcm
        apply h2
        rw [hsc]
        simpa using hcm
      rcases subprocessCommandLoop_no_pass execS cmds2 h2' with h3 | ⟨e, h3⟩ <;> simp [h3]

/-- Witness for C4: a cisco paramiko chain whose commands all return empty
output and a linux subprocess check whose command exits non-zero both return
`None`. -/
theorem exhausted_chain_returns_none_witness :
    (remoteCheckParamikoChain true (.ok ()) (fun _ => .ok ("", "")) ciscoCommandsToTry).result
      = .ok none
    ∧ (remoteCheckWithSubprocess "linux" (fun _ => .error PyExc.calledProcess)).result
      = .ok none :=
  exhausted_chain_returns_none (fun _ => .ok ("", "")) ciscoCommandsToTry
    (fun _ => .error PyExc.calledProcess) "linux" (by decide) (by decide)

/-- Claim C5, counterexample: an unknown family is not always rejected
without a connection.  For the unknown family `freebsd`, the netmiko lookup
silently substitutes `cisco_ios`, and with netmiko available and a password
set, `remote_check_version` attempts a connection (one attempt recorded) and
even returns the substituted device's output as a success. -/
theorem unknown_family_substituted_cx :
    netmikoDeviceTypeFor "freebsd" = "cisco_ios"
    ∧ remoteCheckVersion ⟨true, true⟩
        ⟨fun _ => .ok "v", .ok (), fun _ => .ok ("v", ""), fun _ => .ok (),
         fun _ => .ok "Cisco IOS Software, Version 15.2", fun _ => .ok "v"⟩
        ⟨some "admin", some "secret", "22"⟩ "freebsd"
      = ⟨.ok (some "Cisco IOS Software, Version 15.2"), 1,
         ⟨some "admin", some "secret", "22"⟩⟩ := by
  exact ⟨by decide, rfl⟩

/-- Claim C5, amended: for a device family outside the supported enumeration,
the subprocess command resolver yields no candidates and the subprocess check
returns `None` having attempted no command; but the netmiko check does not
reject such a family — its lookup silently substitutes `cisco_ios`. -/
theorem unknown_family_subprocess_unsupported (dt : String)
    (execS : String → Except PyExc String)
    (h : pyLower dt ∉ ["cisco", "juniper", "ubiquiti", "linux", "windows", "macos"]) :
    subprocessCommandsFor dt = none
    ∧ remoteCheckWithSubprocess dt execS = ⟨.ok none, []⟩
    ∧ netmikoDeviceTypeFor dt = "cisco_ios" := by
  simp only [List.mem_cons, not_or] at h
  obtain ⟨n1, n2, n3, n4, n5, n6, -⟩ := h
  have hc : subprocessCommandsFor dt = none := by
    unfold subprocessCommandsFor
    split_ifs
    all_goals simp_all
  refine ⟨hc, ?_, ?_⟩
  · unfold remoteCheckWithSubprocess
    rw [hc]
  · have b1 : (pyLower dt == "cisco") = false := by simp [n1]
    have b2 : (pyLower dt == "juniper") = false := by simp [n2]
    unfold netmikoDeviceTypeFor netmikoDeviceTypes
    simp [List.lookup, b1, b2]

/-- Witness for C5 (amended): the unknown family `freebsd`. -/
theorem unknown_family_subprocess_unsupported_witness :
    subprocessCommandsFor "freebsd" = none
    ∧ remoteCheckWithSubprocess "freebsd" (fun _ => .ok "v") = ⟨.ok none, []⟩
    ∧ netmikoDeviceTypeFor "freebsd" = "cisco_ios" :=
  unknown_family_subprocess_unsupported "freebsd" (fun _ => .ok "v") (by decide)

/-- Claim C6: candidates within a family and families within auto-detection
are attempted in exactly the statically declared order — the attempted lists
are prefixes of the declared lists — and over the declared family order, if
the first family fails softly and the second succeeds with output `s`, the
result is the stripped `s` and the third and fourth families are never
attempted. -/
theorem ordering_guarantees :
    (∀ (exec : ParamikoExec) (cmds : List String),
        (paramikoCommandLoop exec cmds).2 <+: cmds)
    ∧ (∀ run : String → Except PyExc String,
        (tryAutoDetectDeviceType run).2 <+: deviceTypesToTry.map Prod.fst)
    ∧ (∀ (run : String → Except PyExc String) (s : String),
        autoSoftFails run "cisco_ios" = true → run "juniper" = .ok s →
        netmikoOutputValid s = true →
        tryAutoDetectDeviceType run = (some (pyStrip s), ["cisco_ios", "juniper"])) := by
  refine ⟨paramikoCommandLoop_tried_isPre,
    fun run => autoDetectLoop_tried_isPre run deviceTypesToTry, ?_⟩
  intro run s hsoft hok hv
  unfold tryAutoDetectDeviceType
  rw [show deviceTypesToTry
      = [("cisco_ios", "Cisco IOS")]
        ++ ("juniper", "Juniper JunOS")
          :: [("cisco_xe", "Cisco IOS-XE"), ("cisco_nxos", "Cisco NX-OS")] from rfl]
  rw [autoDetectLoop_append_soft run [("cisco_ios", "Cisco IOS")] _
    (by intro p hp; simp only [List.mem_singleton] at hp; subst hp; exact hsoft)]
  simp [autoDetectLoop, hok, hv]

/-- Witness for C6: first family times out, second answers with a valid
version string; the result is that string and only two families were tried. -/
theorem ordering_guarantees_witness :
    tryAutoDetectDeviceType
      (fun nt => if nt = "cisco_ios" then .error PyExc.netmikoTimeout
                 else if nt = "juniper" then .ok "JUNOS 20.4R3"
                 else .error (PyExc.otherError "x"))
      = (some "JUNOS 20.4R3", ["cisco_ios", "juniper"]) := by
  have h := ordering_guarantees.2.2
    (fun nt => if nt = "cisco_ios" then .error PyExc.netmikoTimeout
               else if nt = "juniper" then .ok "JUNOS 20.4R3"
               else .error (PyExc.otherError "x"))
    "JUNOS 20.4R3" (by decide) (by rfl) (by decide)
  have e : pyStrip "JUNOS 20.4R3" = "JUNOS 20.4R3" := by decide
  rw [e] at h
  exact h

/-- Claim C7: `remote_check_version` never propagates an exception to its
caller — for every availability environment, transport behavior, checker
state and device type, the dispatched check ends in an ordinary returned
value (`Except.ok`), all transport exceptions having been recovered below. -/
theorem remoteCheckVersion_no_exception (env : Env) (t : Transports)
    (c : Checker) (dt : String) :
    ∃ r, (remoteCheckVersion env t c dt).result = .ok r := by
  unfold remoteCheckVersion
  split_ifs with h1 h2 h3 h4 h5
  · exact ⟨(tryAutoDetectDeviceType t.autoRun).1, rfl⟩
  · exact ⟨none, rfl⟩
  · obtain ⟨r, hr⟩ := remoteCheckParamikoChain_isOk env.paramikoAvailable
      t.paramikoConnect t.paramikoExec juniperCommandsToTry
    exact ⟨r, by simpa [remoteCheckJuniperWithParamiko] using hr⟩
  · obtain ⟨r, hr⟩ := remoteCheckParamikoChain_isOk env.paramikoAvailable
      t.paramikoConnect t.paramikoExec ciscoCommandsToTry
    exact ⟨r, by simpa [remoteCheckCiscoWithParamiko] using hr⟩
  · obtain ⟨r, hr⟩ := remoteCheckWithNetmiko_isOk dt t.netmikoConnect t.netmikoSend
    exact ⟨r, by simpa using hr⟩
  · obtain ⟨r, hr⟩ := remoteCheckWithSubprocess_isOk dt t.subprocessExec
    exact ⟨r, by simpa using hr⟩

/-- Claim C8: in the paramiko chains and the netmiko check, the number of
connections opened always equals the number of connections closed — a failed
connect opens nothing, and once a connect succeeds every path (success,
validation failure, exception in a candidate) reaches the close. -/
theorem connections_balanced :
    (∀ (pa : Bool) (connect : Except PyExc Unit) (exec : ParamikoExec)
        (cmds : List String),
        (remoteCheckParamikoChain pa connect exec cmds).opened
          = (remoteCheckParamikoChain pa connect exec cmds).closed)
    ∧ (∀ (dt : String) (connect : String → Except PyExc Unit)
        (send : String → Except PyExc String),
        (remoteCheckWithNetmiko dt connect send).opened
          = (remoteCheckWithNetmiko dt connect send).closed) := by
  constructor
  · intro pa connect exec cmds
    unfold remoteCheckParamikoChain
    cases pa with
    | false => rfl
    | true =>
      cases connect with
      | error e => rfl
      | ok u => cases u; rfl
  · intro dt connect send
    cases hc : connect (netmikoDeviceTypeFor dt) with
    | error e => simp [remoteCheckWithNetmiko, hc]
    | ok u =>
      cases u
      cases hs : send (netmikoDeviceTypeFor dt) with
      | error e => simp [remoteCheckWithNetmiko, hc, hs]
      | ok output => simp [remoteCheckWithNetmiko, hc, hs]

/-- Claim C9: the check never mutates the checker's connection parameters
(username, password, port), and running it again from the state it left
behind, with identical transport behavior, reproduces the identical result. -/
theorem detection_idempotent (env : Env) (t : Transports) (c : Checker)
    (dt : String) :
    (remoteCheckVersion env t c dt).checker = c
    ∧ remoteCheckVersion env t ((remoteCheckVersion env t c dt).checker) dt
        = remoteCheckVersion env t c dt := by
  have h : (remoteCheckVersion env t c dt).checker = c := by
    unfold remoteCheckVersion
    split_ifs <;> rfl
  exact ⟨h, by rw [h]⟩

/-- Claim C10: with `device_type` equal to `auto` in any letter case, when
netmiko is unavailable or no truthy password is held, `remote_check_version`
returns `None` immediately — zero connection attempts, state unchanged. -/
theorem auto_without_netmiko_returns_none (env : Env) (t : Transports)
    (c : Checker) (dt : String) (hdt : pyLower dt = "auto")
    (hno : env.netmikoAvailable = false ∨ optTruthy c.password = false) :
    remoteCheckVersion env t c dt = ⟨.ok none, 0, c⟩ := by
  unfold remoteCheckVersion
  rcases hno with h | h <;> simp [hdt, h]

/-- Witness for C10: device type `AUTO` with netmiko unavailable. -/
theorem auto_without_netmiko_returns_none_witness :
    remoteCheckVersion ⟨false, true⟩
      ⟨fun _ => .ok "v", .ok (), fun _ => .ok ("v", ""), fun _ => .ok (),
       fun _ => .ok "v", fun _ => .ok "v"⟩
      ⟨some "admin", some "secret", "22"⟩ "AUTO"
      = ⟨.ok none, 0, ⟨some "admin", some "secret", "22"⟩⟩ :=
  auto_without_netmiko_returns_none ⟨false, true⟩
    ⟨fun _ => .ok "v", .ok (), fun _ => .ok ("v", ""), fun _ => .ok (),
     fun _ => .ok "v", fun _ => .ok "v"⟩
    ⟨some "admin", some "secret", "22"⟩ "AUTO" (by decide) (Or.inl rfl)

end Checksysvers
